import Mathlib

/-!
Shallow embedding of the twitter-clone backend (`src/unnamed/part_000`).
The server keeps two MongoDB collections, `users` and `tweets`, and exposes
five Express handlers.  Each handler is modelled as a pure function from the
request data and the store state to an HTTP status code and the new store
state.  MongoDB `findOne`/`updateOne`/`deleteOne` act on the first matching
document in insertion order; `insertOne` appends.  Joi validation is modelled
on a small JSON value type; `Joi.string().uri()` is abstracted by a boolean
predicate `uriValid` passed as a parameter, since the handlers only branch on
its verdict.  `new ObjectId(id)` succeeds exactly when `id` is a 24-character
hex string (otherwise it throws and the surrounding catch yields 404); it is
modelled by parsing the hex string to a natural number.
-/

namespace TwitterClone

/-- A JSON value as it can appear for a field of a request body parsed by
`express.json()`. -/
inductive JVal where
  | str (s : String)
  | num (n : Int)
  | boolean (b : Bool)
  | null
deriving DecidableEq

/-- Request body of `POST /sign-up`: the fields `username` and `avatar`,
each possibly absent. -/
structure SignUpBody where
  username : Option JVal
  avatar : Option JVal
deriving DecidableEq

/-- Request body of `POST /tweets` and `PUT /tweets/:id`: the fields
`username` and `tweet`, each possibly absent. -/
structure TweetBody where
  username : Option JVal
  tweet : Option JVal
deriving DecidableEq

/-- A document of the `users` collection.  The store is schema-less, so the
`avatar` field may be absent (`none`); sign-up always writes a string. -/
structure UserDoc where
  username : String
  avatar : Option String
deriving DecidableEq

/-- A document of the `tweets` collection; `_id` is the ObjectId assigned by
the store, modelled as the natural number its 12 bytes denote. -/
structure TweetDoc where
  _id : Nat
  username : String
  tweet : String
deriving DecidableEq

/-- The persistent state: the two collections, in insertion order. -/
structure Store where
  users : List UserDoc
  tweets : List TweetDoc
deriving DecidableEq

/-- `userSchema.validate`: `username` must be a non-empty string (Joi's
`Joi.string().required()` rejects absence, non-strings and the empty string)
and `avatar` must additionally satisfy `.uri()`, abstracted by `uriValid`.
Returns the two field values on success. -/
def validateUser (uriValid : String → Bool) (b : SignUpBody) :
    Option (String × String) :=
  match b.username with
  | some (JVal.str un) =>
      match b.avatar with
      | some (JVal.str av) =>
          if un = "" then none
          else if av = "" then none
          else if uriValid av then some (un, av) else none
      | _ => none
  | _ => none

/-- `tweetSchema.validate`: `username` and `tweet` must each be a non-empty
string. -/
def validateTweet (b : TweetBody) : Option (String × String) :=
  match b.username with
  | some (JVal.str un) =>
      match b.tweet with
      | some (JVal.str tw) =>
          if un = "" then none
          else if tw = "" then none
          else some (un, tw)
      | _ => none
  | _ => none

/-- Value of a hex digit character, `none` for a non-hex character. -/
def hexDigit (c : Char) : Option Nat :=
  if '0' ≤ c ∧ c ≤ '9' then some (c.toNat - '0'.toNat)
  else if 'a' ≤ c ∧ c ≤ 'f' then some (c.toNat - 'a'.toNat + 10)
  else if 'A' ≤ c ∧ c ≤ 'F' then some (c.toNat - 'A'.toNat + 10)
  else none

/-- Big-endian hex parse of a character list. -/
def parseHexNat : List Char → Nat → Option Nat
  | [], acc => some acc
  | c :: cs, acc =>
      match hexDigit c with
      | none => none
      | some d => parseHexNat cs (acc * 16 + d)

/-- `new ObjectId(id)`: succeeds exactly on 24-character hex strings,
yielding the denoted value; any other string makes the constructor throw. -/
def parseObjectId (s : String) : Option Nat :=
  if s.length = 24 then parseHexNat s.data 0 else none

/-- `POST /sign-up` (lines 60-84): validate, reject an existing username
with 409, otherwise append the user document and answer 201. -/
def signUp (uriValid : String → Bool) (s : Store) (body : SignUpBody) :
    Nat × Store :=
  match validateUser uriValid body with
  | none => (422, s)
  | some (username, avatar) =>
      match s.users.find? (fun u => u.username == username) with
      | some _ => (409, s)
      | none =>
          (201, { s with users := s.users ++ [⟨username, some avatar⟩] })

/-- `POST /tweets` (lines 87-113): validate, reject an unregistered
username with 401, otherwise append the tweet (the store assigns the fresh
ObjectId `newId`) and answer 201. -/
def postTweet (s : Store) (newId : Nat) (body : TweetBody) : Nat × Store :=
  match validateTweet body with
  | none => (422, s)
  | some (username, tweet) =>
      match s.users.find? (fun u => u.username == username) with
      | none => (401, s)
      | some _ =>
          (201, { s with tweets := s.tweets ++ [⟨newId, username, tweet⟩] })

/-- An element of the JSON array answered by `GET /tweets`. -/
structure Entry where
  _id : Nat
  username : String
  tweet : String
  avatar : Option String
deriving DecidableEq

/-- `user?.avatar || null` after `usersCollection.findOne({username})`:
`none` when no user document matches, and also when the matching document's
`avatar` field is absent or otherwise falsy (the empty string). -/
def lookupAvatar (users : List UserDoc) (un : String) : Option String :=
  match users.find? (fun u => u.username == un) with
  | none => none
  | some user =>
      match user.avatar with
      | none => none
      | some a => if a = "" then none else some a

/-- `GET /tweets` (lines 116-140): all tweets, each enriched with the
poster's avatar, reversed, with status 200. -/
def getTweets (s : Store) : Nat × List Entry :=
  (200,
    (s.tweets.map (fun t =>
      { _id := t._id, username := t.username, tweet := t.tweet,
        avatar := lookupAvatar s.users t.username })).reverse)

/-- `updateOne({_id}, {$set: {tweet}})`: rewrite the first document whose
`_id` matches, returning the new list and the `modifiedCount` (0 when no
document matches or the stored text already equals the new text). -/
def updateFirst : List TweetDoc → Nat → String → List TweetDoc × Nat
  | [], _, _ => ([], 0)
  | t :: rest, oid, newText =>
      if t._id == oid then
        if t.tweet == newText then (t :: rest, 0)
        else ({ t with tweet := newText } :: rest, 1)
      else
        let r := updateFirst rest oid newText
        (t :: r.1, r.2)

/-- `deleteOne({_id})`: remove the first document whose `_id` matches. -/
def removeFirst : List TweetDoc → Nat → List TweetDoc
  | [], _ => []
  | t :: rest, oid =>
      if t._id == oid then rest else t :: removeFirst rest oid

/-- `PUT /tweets/:id` (lines 143-188): validate the body (422), parse the
id (a throw is caught and answered 404), look up the tweet (404), check
ownership (403), then `updateOne` and answer 304 when nothing was modified,
204 otherwise. -/
def putTweet (s : Store) (idStr : String) (body : TweetBody) : Nat × Store :=
  match validateTweet body with
  | none => (422, s)
  | some (username, tweet) =>
      match parseObjectId idStr with
      | none => (404, s)
      | some objectId =>
          match s.tweets.find? (fun t => t._id == objectId) with
          | none => (404, s)
          | some existingTweet =>
              if existingTweet.username ≠ username then (403, s)
              else
                let result := updateFirst s.tweets objectId tweet
                if result.2 = 0 then (304, { s with tweets := result.1 })
                else (204, { s with tweets := result.1 })

/-- `DELETE /tweets/:id` (lines 191-212): parse the id (a throw is caught
and answered 404), look up the tweet (404), then `deleteOne` and answer
204. -/
def deleteTweet (s : Store) (idStr : String) : Nat × Store :=
  match parseObjectId idStr with
  | none => (404, s)
  | some objectId =>
      match s.tweets.find? (fun t => t._id == objectId) with
      | none => (404, s)
      | some _ =>
          (204, { s with tweets := removeFirst s.tweets objectId })

/-- The claim-side reading of the avatar enrichment in `GET /tweets`: the
avatar of the user document whose username matches, or `null` when no such
document exists. -/
def specAvatar (users : List UserDoc) (un : String) : Option String :=
  match users.find? (fun u => u.username == un) with
  | none => none
  | some user => user.avatar

/-- The claim-side reading of one `GET /tweets` entry. -/
def specEntry (users : List UserDoc) (t : TweetDoc) : Entry :=
  { _id := t._id, username := t.username, tweet := t.tweet,
    avatar := specAvatar users t.username }

/-- A users collection conforming to the data model: every document carries
a non-empty avatar string. -/
def ConformantUsers (users : List UserDoc) : Prop :=
  ∀ u ∈ users, ∃ a, u.avatar = some a ∧ a ≠ ""

instance (users : List UserDoc) : Decidable (ConformantUsers users) := by
  unfold ConformantUsers
  exact List.decidableBAll _ users

/-- Pairwise-distinct usernames in the users collection. -/
def UniqueUsernames (users : List UserDoc) : Prop :=
  (users.map (fun u => u.username)).Nodup

instance (users : List UserDoc) : Decidable (UniqueUsernames users) := by
  unfold UniqueUsernames
  infer_instance

/-! ### Helper lemmas about first-match list operations -/

theorem find_decomp {α : Type} {p : α → Bool} :
    ∀ {l : List α} {a : α}, l.find? p = some a →
      ∃ l1 l2, l = l1 ++ a :: l2 ∧ (∀ x ∈ l1, p x = false) ∧ p a = true := by
  intro l
  induction l with
  | nil => intro a h; simp [List.find?] at h
  | cons b rest ih =>
      intro a h
      cases hp : p b with
      | true =>
          rw [List.find?_cons_of_pos _ hp] at h
          cases h
          exact ⟨[], rest, rfl, by simp, hp⟩
      | false =>
          rw [List.find?_cons_of_neg _ (by simp [hp])] at h
          obtain ⟨l1, l2, heq, hl1, ha⟩ := ih h
          refine ⟨b :: l1, l2, by simp [heq], ?_, ha⟩
          intro x hx
          cases hx with
          | head => exact hp
          | tail _ hx => exact hl1 x hx

theorem updateFirst_decomp (l1 l2 : List TweetDoc) (t : TweetDoc) (oid : Nat)
    (tw : String) (h1 : ∀ x ∈ l1, (x._id == oid) = false)
    (ht : (t._id == oid) = true) :
    updateFirst (l1 ++ t :: l2) oid tw =
      if t.tweet == tw then (l1 ++ t :: l2, 0)
      else (l1 ++ { t with tweet := tw } :: l2, 1) := by
  induction l1 with
  | nil => simp [updateFirst, ht]
  | cons b rest ih =>
      have hb : (b._id == oid) = false := h1 b (by simp)
      have ih2 := ih (fun x hx => h1 x (by simp [hx]))
      by_cases htw : (t.tweet == tw) = true <;>
        simp [updateFirst, hb, ih2, htw, List.append_eq]

theorem removeFirst_decomp (l1 l2 : List TweetDoc) (t : TweetDoc) (oid : Nat)
    (h1 : ∀ x ∈ l1, (x._id == oid) = false)
    (ht : (t._id == oid) = true) :
    removeFirst (l1 ++ t :: l2) oid = l1 ++ l2 := by
  induction l1 with
  | nil => simp [removeFirst, ht]
  | cons b rest ih =>
      have hb : (b._id == oid) = false := h1 b (by simp)
      have ih2 := ih (fun x hx => h1 x (by simp [hx]))
      simp [removeFirst, hb, ih2]

/-! ### Claim theorems -/

/-- C2: if a stored tweet with the requested identity exists and its
`username` differs from the (schema-valid) body's `username`, `PUT
/tweets/:id` answers 403 and leaves the whole store — in particular the
stored tweet and the tweets collection — unchanged. -/
theorem putTweet_wrong_username_403 (s : Store) (idStr : String)
    (body : TweetBody) (un tw : String) (oid : Nat) (t : TweetDoc)
    (hval : validateTweet body = some (un, tw))
    (hparse : parseObjectId idStr = some oid)
    (hfind : s.tweets.find? (fun d => d._id == oid) = some t)
    (hneq : t.username ≠ un) :
    putTweet s idStr body = (403, s) := by
  unfold putTweet
  simp only [hval, hparse, hfind]
  rw [if_pos hneq]

/-- Witness for C2 at a concrete store and request. -/
theorem putTweet_wrong_username_403_witness :
    putTweet ⟨[⟨"alice", some "https://a/x.png"⟩], [⟨1, "alice", "hi"⟩]⟩
        "000000000000000000000001"
        ⟨some (JVal.str "bob"), some (JVal.str "yo")⟩ =
      (403, ⟨[⟨"alice", some "https://a/x.png"⟩], [⟨1, "alice", "hi"⟩]⟩) :=
  putTweet_wrong_username_403 _ _ _ "bob" "yo" 1 ⟨1, "alice", "hi"⟩
    (by decide) (by decide) (by decide) (by decide)

/-- C5: a schema-valid `POST /tweets` whose username matches no user
document answers 401 and leaves the store — in particular the tweets
collection — unchanged. -/
theorem postTweet_unregistered_401 (s : Store) (newId : Nat)
    (body : TweetBody) (un tw : String)
    (hval : validateTweet body = some (un, tw))
    (hfind : s.users.find? (fun u => u.username == un) = none) :
    postTweet s newId body = (401, s) := by
  unfold postTweet
  simp only [hval, hfind]

/-- Witness for C5 at a concrete store and request. -/
theorem postTweet_unregistered_401_witness :
    postTweet ⟨[], []⟩ 5 ⟨some (JVal.str "bob"), some (JVal.str "hi")⟩ =
      (401, ⟨[], []⟩) :=
  postTweet_unregistered_401 _ 5 _ "bob" "hi" (by decide) (by decide)

/-- C3, counterexample to the claim as stated: a `PUT /tweets/:id` request
with a malformed identity but an invalid body answers 422, not 404 — body
validation runs before the identity is parsed. -/
theorem putTweet_malformed_id_invalid_body_cex :
    parseObjectId "zz" = none ∧
      (putTweet ⟨[], []⟩ "zz" ⟨none, none⟩).1 = 422 ∧
      (putTweet ⟨[], []⟩ "zz" ⟨none, none⟩).1 ≠ 404 := by
  decide

/-- C3, amended: for every `PUT /tweets/:id` with a schema-valid body and
every `DELETE /tweets/:id`, if the path id is malformed or well-formed but
matching no stored tweet, the handler answers 404 and the store is
unchanged. -/
theorem put_delete_missing_id_404 (s : Store) (idStr : String)
    (body : TweetBody) (un tw : String)
    (hval : validateTweet body = some (un, tw))
    (hid : ∀ oid, parseObjectId idStr = some oid →
      s.tweets.find? (fun d => d._id == oid) = none) :
    putTweet s idStr body = (404, s) ∧ deleteTweet s idStr = (404, s) := by
  unfold putTweet deleteTweet
  cases hp : parseObjectId idStr with
  | none => simp [hval, hp]
  | some oid => simp [hval, hp, hid oid hp]

/-- Witness for the amended C3 at a concrete store and request. -/
theorem put_delete_missing_id_404_witness :
    putTweet ⟨[], []⟩ "000000000000000000000001"
        ⟨some (JVal.str "a"), some (JVal.str "b")⟩ = (404, ⟨[], []⟩) ∧
      deleteTweet ⟨[], []⟩ "000000000000000000000001" = (404, ⟨[], []⟩) :=
  put_delete_missing_id_404 _ _ _ "a" "b" (by decide) (fun _ _ => rfl)

/-- C4: a schema-valid `POST /sign-up` whose username already belongs to a
user document answers 409 and leaves the store unchanged; moreover every
sign-up step preserves pairwise-distinct usernames, so under sequential
execution at most one user document per username ever exists. -/
theorem signUp_duplicate_409 (uriValid : String → Bool) (s : Store)
    (body : SignUpBody) (un av : String) (u : UserDoc)
    (hval : validateUser uriValid body = some (un, av))
    (hfind : s.users.find? (fun x => x.username == un) = some u) :
    signUp uriValid s body = (409, s) ∧
      (UniqueUsernames s.users →
        ∀ b2 : SignUpBody, UniqueUsernames ((signUp uriValid s b2).2).users) := by
  constructor
  · unfold signUp
    simp only [hval, hfind]
  · intro huniq b2
    unfold signUp
    cases hv2 : validateUser uriValid b2 with
    | none => exact huniq
    | some p =>
        obtain ⟨un2, av2⟩ := p
        dsimp only
        cases hf2 : s.users.find? (fun u => u.username == un2) with
        | some w => exact huniq
        | none =>
            have hnotin : un2 ∉ s.users.map (fun u => u.username) := by
              intro hmem
              obtain ⟨u', hu', hname⟩ := List.mem_map.mp hmem
              have h2 := List.find?_eq_none.mp hf2 u' hu'
              simp [hname] at h2
            unfold UniqueUsernames at huniq ⊢
            simp [List.nodup_append, huniq, hnotin]

/-- Witness for C4 at a concrete store and request. -/
theorem signUp_duplicate_409_witness :
    signUp (fun _ => true) ⟨[⟨"alice", some "https://a/x.png"⟩], []⟩
        ⟨some (JVal.str "alice"), some (JVal.str "https://a/x.png")⟩ =
      (409, ⟨[⟨"alice", some "https://a/x.png"⟩], []⟩) ∧
      (UniqueUsernames [⟨"alice", some "https://a/x.png"⟩] →
        ∀ b2 : SignUpBody,
          UniqueUsernames
            ((signUp (fun _ => true) ⟨[⟨"alice", some "https://a/x.png"⟩], []⟩
              b2).2).users) :=
  signUp_duplicate_409 (fun _ => true) _ _ "alice" "https://a/x.png"
    ⟨"alice", some "https://a/x.png"⟩ (by decide) (by decide)

/-- C6: a `PUT /tweets/:id` that passes validation, existence and ownership
checks answers 304 when the body's text equals the stored text, and 204
otherwise. -/
theorem putTweet_noop_304_else_204 (s : Store) (idStr : String)
    (body : TweetBody) (un tw : String) (oid : Nat) (t : TweetDoc)
    (hval : validateTweet body = some (un, tw))
    (hparse : parseObjectId idStr = some oid)
    (hfind : s.tweets.find? (fun d => d._id == oid) = some t)
    (hown : t.username = un) :
    (putTweet s idStr body).1 = if t.tweet = tw then 304 else 204 := by
  unfold putTweet
  simp only [hval, hparse, hfind]
  rw [if_neg (by simp [hown])]
  obtain ⟨l1, l2, heq, hl1, hidt⟩ := find_decomp hfind
  have hupdate := updateFirst_decomp l1 l2 t oid tw hl1 hidt
  rw [← heq] at hupdate
  by_cases htw : t.tweet = tw
  · simp [hupdate, htw]
  · have hbeq : (t.tweet == tw) = false := by simp [htw]
    simp [hupdate, hbeq, htw]

/-- Witness for C6 at a concrete store and request (the no-op case). -/
theorem putTweet_noop_304_else_204_witness :
    (putTweet ⟨[⟨"alice", some "https://a/x.png"⟩], [⟨1, "alice", "hi"⟩]⟩
        "000000000000000000000001"
        ⟨some (JVal.str "alice"), some (JVal.str "hi")⟩).1 =
      if ("hi" : String) = "hi" then 304 else 204 :=
  putTweet_noop_304_else_204 _ _ _ "alice" "hi" 1 ⟨1, "alice", "hi"⟩
    (by decide) (by decide) (by decide) (by decide)

/-- C7: a successful `PUT /tweets/:id` (status 204) replaces only the
`tweet` field of the targeted document: its `_id` and `username` are kept,
every tweet document before and after it is untouched, and the users
collection is unchanged. -/
theorem putTweet_success_frame (s : Store) (idStr : String)
    (body : TweetBody) (un tw : String) (oid : Nat) (t : TweetDoc)
    (hval : validateTweet body = some (un, tw))
    (hparse : parseObjectId idStr = some oid)
    (hfind : s.tweets.find? (fun d => d._id == oid) = some t)
    (hown : t.username = un)
    (hchanged : t.tweet ≠ tw) :
    (putTweet s idStr body).1 = 204 ∧
      ((putTweet s idStr body).2).users = s.users ∧
      ∃ l1 l2, s.tweets = l1 ++ t :: l2 ∧ (∀ x ∈ l1, x._id ≠ oid) ∧
        ((putTweet s idStr body).2).tweets =
          l1 ++ ({ t with tweet := tw } : TweetDoc) :: l2 := by
  obtain ⟨l1, l2, heq, hl1, hidt⟩ := find_decomp hfind
  have hupdate := updateFirst_decomp l1 l2 t oid tw hl1 hidt
  rw [← heq] at hupdate
  have hbeq : (t.tweet == tw) = false := by simp [hchanged]
  have hmain : putTweet s idStr body =
      (204, { s with tweets := l1 ++ ({ t with tweet := tw } : TweetDoc) :: l2 }) := by
    unfold putTweet
    simp only [hval, hparse, hfind]
    rw [if_neg (by simp [hown])]
    simp [hupdate, hbeq]
  refine ⟨by rw [hmain], by rw [hmain], l1, l2, heq, ?_, by rw [hmain]⟩
  intro x hx
  simpa using hl1 x hx

/-- Witness for C7 at a concrete store and request. -/
theorem putTweet_success_frame_witness :
    (putTweet ⟨[⟨"alice", some "https://a/x.png"⟩], [⟨1, "alice", "hi"⟩]⟩
        "000000000000000000000001"
        ⟨some (JVal.str "alice"), some (JVal.str "new")⟩).1 = 204 ∧
      ((putTweet ⟨[⟨"alice", some "https://a/x.png"⟩], [⟨1, "alice", "hi"⟩]⟩
        "000000000000000000000001"
        ⟨some (JVal.str "alice"), some (JVal.str "new")⟩).2).users =
        [⟨"alice", some "https://a/x.png"⟩] ∧
      ∃ l1 l2, [(⟨1, "alice", "hi"⟩ : TweetDoc)] = l1 ++ ⟨1, "alice", "hi"⟩ :: l2 ∧
        (∀ x ∈ l1, x._id ≠ 1) ∧
        ((putTweet ⟨[⟨"alice", some "https://a/x.png"⟩], [⟨1, "alice", "hi"⟩]⟩
          "000000000000000000000001"
          ⟨some (JVal.str "alice"), some (JVal.str "new")⟩).2).tweets =
          l1 ++ ({ (⟨1, "alice", "hi"⟩ : TweetDoc) with tweet := "new" } : TweetDoc) :: l2 :=
  putTweet_success_frame _ _ _ "alice" "new" 1 ⟨1, "alice", "hi"⟩
    (by decide) (by decide) (by decide) (by decide) (by decide)

/-- C8: a `DELETE /tweets/:id` whose well-formed id matches a stored tweet
answers 204 and removes exactly that document: the tweets before and after
it and the users collection are unchanged. -/
theorem deleteTweet_success (s : Store) (idStr : String) (oid : Nat)
    (t : TweetDoc)
    (hparse : parseObjectId idStr = some oid)
    (hfind : s.tweets.find? (fun d => d._id == oid) = some t) :
    (deleteTweet s idStr).1 = 204 ∧
      ((deleteTweet s idStr).2).users = s.users ∧
      ∃ l1 l2, s.tweets = l1 ++ t :: l2 ∧ (∀ x ∈ l1, x._id ≠ oid) ∧
        ((deleteTweet s idStr).2).tweets = l1 ++ l2 := by
  obtain ⟨l1, l2, heq, hl1, hidt⟩ := find_decomp hfind
  have hremove := removeFirst_decomp l1 l2 t oid hl1 hidt
  rw [← heq] at hremove
  have hmain : deleteTweet s idStr = (204, { s with tweets := l1 ++ l2 }) := by
    unfold deleteTweet
    simp only [hparse, hfind]
    rw [hremove]
  refine ⟨by rw [hmain], by rw [hmain], l1, l2, heq, ?_, by rw [hmain]⟩
  intro x hx
  simpa using hl1 x hx

/-- Witness for C8 at a concrete store and request. -/
theorem deleteTweet_success_witness :
    (deleteTweet ⟨[], [⟨1, "alice", "hi"⟩, ⟨2, "bob", "yo"⟩]⟩
        "000000000000000000000001").1 = 204 ∧
      ((deleteTweet ⟨[], [⟨1, "alice", "hi"⟩, ⟨2, "bob", "yo"⟩]⟩
        "000000000000000000000001").2).users = [] ∧
      ∃ l1 l2,
        [(⟨1, "alice", "hi"⟩ : TweetDoc), ⟨2, "bob", "yo"⟩] =
          l1 ++ ⟨1, "alice", "hi"⟩ :: l2 ∧
        (∀ x ∈ l1, x._id ≠ 1) ∧
        ((deleteTweet ⟨[], [⟨1, "alice", "hi"⟩, ⟨2, "bob", "yo"⟩]⟩
          "000000000000000000000001").2).tweets = l1 ++ l2 :=
  deleteTweet_success _ _ 1 ⟨1, "alice", "hi"⟩ (by decide) (by decide)

/-- C9: a `POST /sign-up` whose body has a missing or non-string username
or avatar, or whose avatar string is not a well-formed URI, answers 422 and
leaves the store unchanged. -/
theorem signUp_invalid_body_422 (uriValid : String → Bool) (s : Store)
    (body : SignUpBody)
    (h : body.username = none ∨ (∀ a, body.username ≠ some (JVal.str a)) ∨
         body.avatar = none ∨ (∀ a, body.avatar ≠ some (JVal.str a)) ∨
         ∃ a, body.avatar = some (JVal.str a) ∧ uriValid a = false) :
    signUp uriValid s body = (422, s) := by
  have hv : validateUser uriValid body = none := by
    unfold validateUser
    rcases hbu : body.username with _ | ju
    · rfl
    · cases ju with
      | str un =>
          rcases hba : body.avatar with _ | ja
          · rfl
          · cases ja with
            | str av =>
                rcases h with h | h | h | h | ⟨a, ha, hu⟩
                · rw [hbu] at h; exact absurd h (by simp)
                · exact absurd hbu (h un)
                · rw [hba] at h; exact absurd h (by simp)
                · exact absurd hba (h av)
                · rw [hba] at ha
                  have hav : av = a := by
                    injection ha with ha2
                    injection ha2
                  dsimp only
                  split_ifs with h1 h2 h3
                  · rfl
                  · rfl
                  · rw [hav, hu] at h3; exact absurd h3 (by simp)
                  · rfl
            | num n => rfl
            | boolean b2 => rfl
            | null => rfl
      | num n => rfl
      | boolean b2 => rfl
      | null => rfl
  unfold signUp
  simp only [hv]

/-- Witness for C9 at a concrete store and request. -/
theorem signUp_invalid_body_422_witness :
    signUp (fun _ => false) ⟨[], []⟩
        ⟨some (JVal.str "alice"), some (JVal.str "not a uri")⟩ =
      (422, ⟨[], []⟩) :=
  signUp_invalid_body_422 (fun _ => false) _ _
    (Or.inr (Or.inr (Or.inr (Or.inr ⟨"not a uri", rfl, rfl⟩))))

/-- The avatars looked up by the handler and by the claim agree whenever
every user document carries a non-empty avatar string. -/
theorem lookupAvatar_conformant (users : List UserDoc) (un : String)
    (h : ConformantUsers users) : lookupAvatar users un = specAvatar users un := by
  unfold lookupAvatar specAvatar
  cases hf : users.find? (fun u => u.username == un) with
  | none => rfl
  | some u =>
      obtain ⟨a, ha, hne⟩ := h u (List.mem_of_find?_eq_some hf)
      dsimp only
      rw [ha]
      simp [hne]

/-- C1: for a store whose user documents conform to the data model (every
avatar a non-empty string), `GET /tweets` answers 200 with one entry per
stored tweet in reverse insertion order, each entry copying `_id`,
`username` and `tweet` and carrying the matching user's avatar, or null
when no user document matches. -/
theorem getTweets_conformant (s : Store) (h : ConformantUsers s.users) :
    getTweets s = (200, (s.tweets.map (specEntry s.users)).reverse) := by
  unfold getTweets
  have hfun : (fun t : TweetDoc =>
      ({ _id := t._id, username := t.username, tweet := t.tweet,
         avatar := lookupAvatar s.users t.username } : Entry)) =
      specEntry s.users := by
    funext t
    unfold specEntry
    rw [lookupAvatar_conformant s.users t.username h]
  rw [hfun]

/-- Witness for C1 at a concrete store. -/
theorem getTweets_conformant_witness :
    getTweets ⟨[⟨"alice", some "https://a/x.png"⟩],
        [⟨1, "alice", "hi"⟩, ⟨2, "bob", "yo"⟩]⟩ =
      (200,
        ([(⟨1, "alice", "hi"⟩ : TweetDoc), ⟨2, "bob", "yo"⟩].map
          (specEntry [⟨"alice", some "https://a/x.png"⟩])).reverse) :=
  getTweets_conformant _ (by decide)

/-- C10: in `GET /tweets`, a tweet whose matching user document has a
missing or empty-string (falsy) avatar field is rendered with
`avatar: null`, exactly like a tweet whose user document is absent. -/
theorem getTweets_falsy_avatar_null (s : Store) (t : TweetDoc) (u : UserDoc)
    (ht : t ∈ s.tweets)
    (hu : s.users.find? (fun x => x.username == t.username) = some u)
    (hfalsy : u.avatar = none ∨ u.avatar = some "") :
    ({ _id := t._id, username := t.username, tweet := t.tweet,
       avatar := none } : Entry) ∈ (getTweets s).2 := by
  have hl : lookupAvatar s.users t.username = none := by
    unfold lookupAvatar
    rw [hu]
    dsimp only
    rcases hfalsy with hf | hf <;> simp [hf]
  unfold getTweets
  rw [List.mem_reverse]
  exact List.mem_map.mpr ⟨t, ht, by rw [hl]⟩

/-- Witness for C10 at a concrete store whose only user has an
empty-string avatar. -/
theorem getTweets_falsy_avatar_null_witness :
    ({ _id := 3, username := "carol", tweet := "x",
       avatar := none } : Entry) ∈
      (getTweets ⟨[⟨"carol", some ""⟩], [⟨3, "carol", "x"⟩]⟩).2 :=
  getTweets_falsy_avatar_null _ ⟨3, "carol", "x"⟩ ⟨"carol", some ""⟩
    (by decide) (by decide) (Or.inr rfl)

end TwitterClone
